import Mathlib

/-!
Verification of the scale-bar quantization and texture-cache logic of
`src/neuroglancer/widget/scale_bar.ts`.

JavaScript numbers are modelled as exact values: a `JSNum` is either `nan`
(the IEEE NaN, which is the only non-finite value the relevant code paths can
produce from finite inputs) or an exact rational.  All arithmetic on finite
values is exact rational arithmetic; this is the usual idealization of the
float computations, and the spec itself states all its properties in exact
terms.  `Math.round` (round half toward positive infinity) coincides with
Mathlib's `round` on ℚ.  JS field reads of never-assigned fields give
`undefined`, modelled by `Option`.
-/

/-- A JavaScript number: NaN or an exact (finite) value. -/
inductive JSNum where
  | nan : JSNum
  | num : ℚ → JSNum
deriving DecidableEq

namespace JSNum

/-- JavaScript strict equality `===` on numbers: false whenever either side is
NaN, ordinary equality on finite values. -/
def strictEq : JSNum → JSNum → Bool
  | num a, num b => a == b
  | _, _ => false

/-- JavaScript `*` on numbers: NaN absorbs, otherwise exact product
(finite inputs in the modelled ranges do not overflow). -/
def mul : JSNum → JSNum → JSNum
  | num a, num b => num (a * b)
  | _, _ => nan

/-- JavaScript `Math.max` on two numbers: NaN if either argument is NaN. -/
def jsMax : JSNum → JSNum → JSNum
  | num a, num b => num (max a b)
  | _, _ => nan

/-- JavaScript `+` on numbers: NaN absorbs. -/
def add : JSNum → JSNum → JSNum
  | num a, num b => num (a + b)
  | _, _ => nan

/-- Reading a possibly-unassigned JS number field in a numeric context:
`undefined` coerces to NaN (e.g. `Math.max(undefined, w)` is NaN). -/
def ofField : Option JSNum → JSNum
  | some x => x
  | none => nan

end JSNum

/-- `DEFAULT_ALLOWED_SIGNIFICANDS` (scale_bar.ts lines 39-46). -/
def DEFAULT_ALLOWED_SIGNIFICANDS : List ℚ := [3/2, 2, 3, 5, 15/2, 10]

/-- `LengthUnit` (scale_bar.ts lines 48-51). -/
structure LengthUnit where
  unit : String
  lengthInNanometers : ℚ
deriving DecidableEq

/-- `ALLOWED_UNITS` (scale_bar.ts lines 53-60). -/
def ALLOWED_UNITS : List LengthUnit :=
  [⟨"km", 10 ^ 12⟩, ⟨"m", 10 ^ 9⟩, ⟨"mm", 10 ^ 6⟩, ⟨"µm", 10 ^ 3⟩,
   ⟨"nm", 1⟩, ⟨"pm", 1 / 1000⟩]

/-- The loop of `pickLengthUnit` (scale_bar.ts lines 65-71): scan the list,
return the first unit whose threshold is ≤ the input, else the default
(initialized to the last unit). -/
def pickLengthUnitLoop (x : ℚ) : List LengthUnit → LengthUnit → LengthUnit
  | [], unit => unit
  | allowedUnit :: rest, unit =>
    if allowedUnit.lengthInNanometers ≤ x then allowedUnit
    else pickLengthUnitLoop x rest unit

/-- `pickLengthUnit` (scale_bar.ts lines 62-73).  The JS comparison
`lengthInNanometers >= allowedUnit.lengthInNanometers` is false for NaN input,
so a NaN argument falls through to the last unit; callers below that pass a
possibly-NaN value handle that case explicitly. -/
def pickLengthUnit (lengthInNanometers : ℚ) : LengthUnit :=
  pickLengthUnitLoop lengthInNanometers ALLOWED_UNITS ⟨"pm", 1 / 1000⟩

/-- The significand-selection loop of `update` (scale_bar.ts lines 130-139):
best-so-far starts at 1; take each candidate that is strictly closer to the
target, stop at the first one that is not. -/
def findBestSignificand : List ℚ → ℚ → ℚ → ℚ
  | [], bestSignificand, _ => bestSignificand
  | allowedSignificand :: rest, bestSignificand, targetSignificand =>
    if |allowedSignificand - targetSignificand| < |bestSignificand - targetSignificand| then
      findBestSignificand rest allowedSignificand targetSignificand
    else bestSignificand

/-- Modelled from the spec: the recommended-safe reimplementation of the
significand selection as "an explicit full-scan minimum-by-distance over the
whole set together with 1" (spec §4.1 step 4 / §9), used only to compare
against the source's early-exit loop `findBestSignificand`. -/
def fullScanBestSignificand (allowed : List ℚ) (targetSignificand : ℚ) : ℚ :=
  allowed.foldl
    (fun best a => if |a - targetSignificand| < |best - targetSignificand| then a else best) 1

/-- `ScaleBarDimensions` state (scale_bar.ts lines 75-107).  The three output
fields are declared in TS without initializer, hence `undefined` until first
assigned: modelled as `Option`. -/
structure ScaleBarDimensions where
  allowedSignificands : List ℚ := DEFAULT_ALLOWED_SIGNIFICANDS
  targetLengthInPixels : JSNum := .num 0
  nanometersPerPixel : JSNum := .num 0
  lengthInPixels : Option JSNum := none
  physicalLength : Option JSNum := none
  physicalUnit : Option String := none
  prevNanometersPerPixel : JSNum := .num 0
  prevTargetLengthInPixels : JSNum := .num 0
deriving DecidableEq

/-- A freshly constructed `ScaleBarDimensions` (all TS field initializers). -/
def ScaleBarDimensions.initial : ScaleBarDimensions := {}

/-- The computation of `update` past the short-circuit (scale_bar.ts lines
123-145), producing `(lengthInPixels, physicalLength, physicalUnit)`.

For positive finite `targetNanometers = t * npp` this is the exact-arithmetic
translation: `exponent = Math.floor(Math.log(tn) / Math.LN10)` is `Int.log 10
tn` (the floor of log₁₀), `Math.pow`, `/`, `*` are exact, and `Math.round` is
Mathlib's `round`.

The remaining branches record what the JS float semantics produce there:
* `tn = 0` (a finite input is 0): `Math.log 0 = -∞`, `Math.floor (-∞) = -∞`,
  `Math.pow 10 (-∞) = 0`, so `targetSignificand = 0/0 = NaN`; both NaN
  comparisons in the loop are false so `bestSignificand` stays 1;
  `physicalNanometers = 1 * 0 = 0`; `pickLengthUnit 0` falls through to pm;
  `lengthInPixels = Math.round (0 / npp)` is NaN when `npp = 0` and 0
  otherwise; `physicalLength = 0 / 1e-3 = 0`.
* `tn < 0`: `Math.log tn = NaN`, which poisons exponent, base, significand
  (loop again keeps 1) and `physicalNanometers = NaN`; `pickLengthUnit NaN`
  falls through to pm; `lengthInPixels` and `physicalLength` are NaN.
* either input NaN: `tn = NaN`, identical poisoning to the previous case. -/
def computeOutputs (allowedSignificands : List ℚ) :
    JSNum → JSNum → JSNum × JSNum × String
  | .num t, .num npp =>
    let tn := t * npp
    if 0 < tn then
      let exponent : ℤ := Int.log 10 tn
      let tenToThePowerExponent : ℚ := (10 : ℚ) ^ exponent
      let targetSignificand := tn / tenToThePowerExponent
      let bestSignificand := findBestSignificand allowedSignificands 1 targetSignificand
      let physicalNanometers := bestSignificand * tenToThePowerExponent
      let unit := pickLengthUnit physicalNanometers
      (.num ((round (physicalNanometers / npp) : ℤ) : ℚ),
       .num (physicalNanometers / unit.lengthInNanometers),
       unit.unit)
    else if tn = 0 then
      ((if npp = 0 then .nan else .num 0), .num 0, "pm")
    else
      (.nan, .nan, "pm")
  | _, _ => (.nan, .nan, "pm")

/-- `ScaleBarDimensions.update` (scale_bar.ts lines 115-147): short-circuit on
strict equality of both inputs with the cached previous inputs, otherwise
cache the inputs and recompute the three outputs.  Returns the changed flag
and the updated state. -/
def ScaleBarDimensions.update (s : ScaleBarDimensions) : Bool × ScaleBarDimensions :=
  if s.prevNanometersPerPixel.strictEq s.nanometersPerPixel &&
      s.prevTargetLengthInPixels.strictEq s.targetLengthInPixels then
    (false, s)
  else
    let o := computeOutputs s.allowedSignificands s.targetLengthInPixels s.nanometersPerPixel
    (true,
      { s with
        prevNanometersPerPixel := s.nanometersPerPixel
        prevTargetLengthInPixels := s.targetLengthInPixels
        lengthInPixels := some o.1
        physicalLength := some o.2.1
        physicalUnit := some o.2.2 })

/-- The graphics context, modelled as a fresh-handle supplier: `createTexture`
returns a new handle.  Texture upload (`setTextureFromCanvas`) is an opaque
sink with no further observable state. -/
structure GLContext where
  nextHandle : ℕ
deriving DecidableEq

/-- `gl.createTexture()`: allocate a fresh texture handle. -/
def GLContext.createTexture (gl : GLContext) : ℕ × GLContext :=
  (gl.nextHandle, ⟨gl.nextHandle + 1⟩)

/-- `makeScaleBarTexture` (scale_bar.ts lines 150-177), restricted to the
returned raster size `{width, height}`; drawing and upload go to the opaque
canvas/GLContext collaborators.  The measured label width `textWidth`
(`ctx.measureText(text).width`) comes from the canvas collaborator, so it is a
parameter.  `totalWidth = max(lengthInPixels, textWidth) + 2*padding` and
`totalHeight = barHeight + barTopMargin + textHeight + 2*padding`. -/
def makeScaleBarTexture (dimensions : ScaleBarDimensions) (textWidth : ℚ) :
    JSNum × JSNum :=
  let textHeight : ℚ := 15
  let innerWidth := JSNum.jsMax (JSNum.ofField dimensions.lengthInPixels) (.num textWidth)
  let barHeight : ℚ := 8
  let barTopMargin : ℚ := 5
  let innerHeight : ℚ := barHeight + barTopMargin + textHeight
  let padding : ℚ := 2
  (innerWidth.add (.num (2 * padding)), .num (innerHeight + 2 * padding))

/-- `ScaleBarTexture` state (scale_bar.ts lines 179-199). -/
structure ScaleBarTexture where
  gl : GLContext
  dimensions : ScaleBarDimensions := ScaleBarDimensions.initial
  texture : Option ℕ := none
  width : JSNum := .num 0
  height : JSNum := .num 0
deriving DecidableEq

/-- `ScaleBarTexture.update` (scale_bar.ts lines 187-199): run the quantizer;
if it reports unchanged and a texture handle exists, do nothing; otherwise
allocate a handle if none exists, rasterize and upload, and record the new
raster size. -/
def ScaleBarTexture.update (s : ScaleBarTexture) (textWidth : ℚ) : ScaleBarTexture :=
  let r := s.dimensions.update
  if !r.1 && s.texture.isSome then
    { s with dimensions := r.2 }
  else
    let (texture, gl) :=
      match s.texture with
      | some t => (t, s.gl)
      | none => s.gl.createTexture
    let wh := makeScaleBarTexture r.2 textWidth
    { s with
      dimensions := r.2
      gl := gl
      texture := some texture
      width := wh.1
      height := wh.2 }

/-- A quantizer state whose `nanometersPerPixel` is NaN and whose cached
previous inputs hold exactly the same (bit-identical) values. -/
def nanState : ScaleBarDimensions :=
  { targetLengthInPixels := .num 50
    nanometersPerPixel := .nan
    prevTargetLengthInPixels := .num 50
    prevNanometersPerPixel := .nan }

/-- A freshly constructed quantizer whose inputs were set to
`targetLengthInPixels = 50`, `nanometersPerPixel = 0`. -/
def invalidInputState : ScaleBarDimensions :=
  { targetLengthInPixels := .num 50
    nanometersPerPixel := .num 0 }

/-- A freshly constructed quantizer whose inputs were set to the spec's
scenario B: `targetLengthInPixels = 50`, `nanometersPerPixel = 37`. -/
def scenarioBState : ScaleBarDimensions :=
  { targetLengthInPixels := .num 50
    nanometersPerPixel := .num 37 }

/-- A freshly constructed renderer (no texture yet) over a fresh quantizer. -/
def freshTexture : ScaleBarTexture :=
  { gl := ⟨0⟩ }

/-! ## Basic facts about `ScaleBarDimensions.update` -/

/-- If both inputs compare strictly equal to the cached previous inputs,
`update` reports unchanged and returns the state untouched. -/
theorem ScaleBarDimensions.update_of_cached (s : ScaleBarDimensions)
    (h : (s.prevNanometersPerPixel.strictEq s.nanometersPerPixel &&
      s.prevTargetLengthInPixels.strictEq s.targetLengthInPixels) = true) :
    s.update = (false, s) := by
  simp [ScaleBarDimensions.update, h]

/-- If the strict-equality short-circuit test fails, `update` reports changed,
caches the inputs and stores the three recomputed outputs. -/
theorem ScaleBarDimensions.update_of_changed (s : ScaleBarDimensions)
    (h : (s.prevNanometersPerPixel.strictEq s.nanometersPerPixel &&
      s.prevTargetLengthInPixels.strictEq s.targetLengthInPixels) = false) :
    s.update = (true,
      { s with
        prevNanometersPerPixel := s.nanometersPerPixel
        prevTargetLengthInPixels := s.targetLengthInPixels
        lengthInPixels :=
          some (computeOutputs s.allowedSignificands s.targetLengthInPixels
            s.nanometersPerPixel).1
        physicalLength :=
          some (computeOutputs s.allowedSignificands s.targetLengthInPixels
            s.nanometersPerPixel).2.1
        physicalUnit :=
          some (computeOutputs s.allowedSignificands s.targetLengthInPixels
            s.nanometersPerPixel).2.2 }) := by
  simp [ScaleBarDimensions.update, h]

/-- If the short-circuit test fails, `update` reports changed. -/
theorem ScaleBarDimensions.update_changed_fst (s : ScaleBarDimensions)
    (h : (s.prevNanometersPerPixel.strictEq s.nanometersPerPixel &&
      s.prevTargetLengthInPixels.strictEq s.targetLengthInPixels) = false) :
    (s.update).1 = true := by
  rw [ScaleBarDimensions.update_of_changed s h]

/-- When `update` reports unchanged, the state (in particular all three
outputs) is untouched. -/
theorem ScaleBarDimensions.update_snd_of_not_fst (s : ScaleBarDimensions)
    (h : (s.update).1 = false) : (s.update).2 = s := by
  by_cases hc : (s.prevNanometersPerPixel.strictEq s.nanometersPerPixel &&
      s.prevTargetLengthInPixels.strictEq s.targetLengthInPixels) = true
  · rw [ScaleBarDimensions.update_of_cached s hc]
  · rw [ScaleBarDimensions.update_changed_fst s (Bool.not_eq_true _ ▸ hc)] at h
    cases h

/-- When `update` reports unchanged, the short-circuit test succeeded. -/
theorem ScaleBarDimensions.cached_of_update_not_fst (s : ScaleBarDimensions)
    (h : (s.update).1 = false) :
    (s.prevNanometersPerPixel.strictEq s.nanometersPerPixel &&
      s.prevTargetLengthInPixels.strictEq s.targetLengthInPixels) = true := by
  by_cases hc : (s.prevNanometersPerPixel.strictEq s.nanometersPerPixel &&
      s.prevTargetLengthInPixels.strictEq s.targetLengthInPixels) = true
  · exact hc
  · rw [ScaleBarDimensions.update_changed_fst s (Bool.not_eq_true _ ▸ hc)] at h
    cases h

/-! ## Claims about the short-circuit and the degenerate inputs -/

/-- Strict equality against NaN on the right is always false. -/
theorem JSNum.strictEq_nan_right (x : JSNum) : x.strictEq JSNum.nan = false := by
  cases x <;> rfl

/-- Strict equality against NaN on the left is always false. -/
theorem JSNum.strictEq_nan_left (x : JSNum) : JSNum.nan.strictEq x = false := by
  cases x <;> rfl

/-- Claim C10: on a freshly constructed `ScaleBarDimensions` with inputs left
at their defaults (`targetLengthInPixels = 0`, `nanometersPerPixel = 0`), the
very first `update()` returns `false` (the defaults equal the cached previous
inputs, also 0), the state is left untouched, and the three output fields were
never assigned, so reading them yields an undefined/absent value. -/
theorem initial_update_unchanged :
    ScaleBarDimensions.initial.update = (false, ScaleBarDimensions.initial) ∧
    ScaleBarDimensions.initial.lengthInPixels = none ∧
    ScaleBarDimensions.initial.physicalLength = none ∧
    ScaleBarDimensions.initial.physicalUnit = none := by
  refine ⟨ScaleBarDimensions.update_of_cached _ ?_, rfl, rfl, rfl⟩
  simp [ScaleBarDimensions.initial, JSNum.strictEq]

/-- Claim C9: if `nanometersPerPixel` (or `targetLengthInPixels`) is NaN,
`update()` returns true (changed) on every call — even when the inputs are
bit-identical to the cached previous inputs — because the strict-equality
(`===`) comparison used for change detection is false for NaN. -/
theorem update_nan_always_changed (s : ScaleBarDimensions)
    (h : s.nanometersPerPixel = JSNum.nan ∨ s.targetLengthInPixels = JSNum.nan) :
    (s.update).1 = true := by
  apply ScaleBarDimensions.update_changed_fst
  rcases h with h | h <;> rw [h, JSNum.strictEq_nan_right]
  · rw [Bool.false_and]
  · rw [Bool.and_false]

/-- Witness for claim C9, at a state whose inputs are bit-identical to the
cached previous inputs (both `nanometersPerPixel` fields hold NaN). -/
theorem update_nan_always_changed_witness :
    (nanState.update).1 = true :=
  update_nan_always_changed nanState (Or.inl rfl)

/-- Claim C5 concerns invalid input (`nanometersPerPixel = 0`).  The code has
no input-validation guard: at `targetLengthInPixels = 50`,
`nanometersPerPixel = 0` the short-circuit fails (the target changed), the
logarithm step is reached, and `update()` returns `true` with a NaN-poisoned
`lengthInPixels` — it does not fail with an InvalidInput condition. -/
theorem update_no_invalidInput_guard :
    (invalidInputState.update).1 = true ∧
    (invalidInputState.update).2.lengthInPixels = some JSNum.nan ∧
    (invalidInputState.update).2.physicalLength = some (JSNum.num 0) ∧
    (invalidInputState.update).2.physicalUnit = some "pm" := by
  have hcond : (invalidInputState.prevNanometersPerPixel.strictEq
        invalidInputState.nanometersPerPixel &&
      invalidInputState.prevTargetLengthInPixels.strictEq
        invalidInputState.targetLengthInPixels) = false := by
    norm_num [invalidInputState, JSNum.strictEq]
  have hco : computeOutputs invalidInputState.allowedSignificands
      invalidInputState.targetLengthInPixels invalidInputState.nanometersPerPixel =
      (JSNum.nan, JSNum.num 0, "pm") := by
    show computeOutputs DEFAULT_ALLOWED_SIGNIFICANDS (.num 50) (.num 0) = _
    norm_num [computeOutputs]
  rw [ScaleBarDimensions.update_of_changed _ hcond]
  simp [hco]

/-- Claim C4 counterexample: with NaN inputs whose cached previous values are
bit-identical (the same NaN), `update()` nevertheless returns `true`, so
"returns false if and only if both current inputs are bit-identical to the
previous inputs" fails as stated. -/
theorem update_shortCircuit_bitIdentical_counterexample :
    nanState.nanometersPerPixel = nanState.prevNanometersPerPixel ∧
    nanState.targetLengthInPixels = nanState.prevTargetLengthInPixels ∧
    (nanState.update).1 = true :=
  ⟨rfl, rfl, ScaleBarDimensions.update_changed_fst _ rfl⟩

/-- Claim C4 (amended): `update()` returns false iff both current inputs
compare strictly equal (JS `===`, which agrees with bit-identity except that
NaN never compares equal) to the cached previous inputs; in that case the
three outputs are left untouched, and otherwise it returns true, caches the
inputs, and recomputes all three outputs. -/
theorem update_shortCircuit_iff (s : ScaleBarDimensions) :
    ((s.update).1 = false ↔
      s.prevNanometersPerPixel.strictEq s.nanometersPerPixel = true ∧
      s.prevTargetLengthInPixels.strictEq s.targetLengthInPixels = true) ∧
    ((s.update).1 = false → (s.update).2 = s) ∧
    ((s.update).1 = true →
      (s.update).2 =
        { s with
          prevNanometersPerPixel := s.nanometersPerPixel
          prevTargetLengthInPixels := s.targetLengthInPixels
          lengthInPixels :=
            some (computeOutputs s.allowedSignificands s.targetLengthInPixels
              s.nanometersPerPixel).1
          physicalLength :=
            some (computeOutputs s.allowedSignificands s.targetLengthInPixels
              s.nanometersPerPixel).2.1
          physicalUnit :=
            some (computeOutputs s.allowedSignificands s.targetLengthInPixels
              s.nanometersPerPixel).2.2 }) := by
  by_cases hc : (s.prevNanometersPerPixel.strictEq s.nanometersPerPixel &&
      s.prevTargetLengthInPixels.strictEq s.targetLengthInPixels) = true
  · have hupd := ScaleBarDimensions.update_of_cached s hc
    rw [Bool.and_eq_true] at hc
    refine ⟨by simp [hupd, hc], fun _ => by rw [hupd], fun h => ?_⟩
    rw [hupd] at h
    cases h
  · have hf := Bool.not_eq_true _ ▸ hc
    have hupd := ScaleBarDimensions.update_of_changed s hf
    rw [Bool.and_eq_false_iff] at hf
    refine ⟨⟨fun h => ?_, fun h => ?_⟩, fun h => ?_, fun _ => by rw [hupd]⟩
    · rw [hupd] at h
      exact Bool.noConfusion h
    · rcases hf with hf | hf
      · rw [h.1] at hf
        exact Bool.noConfusion hf
      · rw [h.2] at hf
        exact Bool.noConfusion hf
    · rw [hupd] at h
      exact Bool.noConfusion h

/-- Witness for the amended claim C4, at the fresh default state: both inputs
compare strictly equal to the cached previous inputs, `update` reports
unchanged, and the state is untouched. -/
theorem update_shortCircuit_iff_witness :
    ((ScaleBarDimensions.initial.update).1 = false ↔
      ScaleBarDimensions.initial.prevNanometersPerPixel.strictEq
        ScaleBarDimensions.initial.nanometersPerPixel = true ∧
      ScaleBarDimensions.initial.prevTargetLengthInPixels.strictEq
        ScaleBarDimensions.initial.targetLengthInPixels = true) ∧
    (ScaleBarDimensions.initial.update).2 = ScaleBarDimensions.initial :=
  ⟨(update_shortCircuit_iff ScaleBarDimensions.initial).1,
   (update_shortCircuit_iff ScaleBarDimensions.initial).2.1
     (by rw [ScaleBarDimensions.update_of_cached _
       (by simp [ScaleBarDimensions.initial, JSNum.strictEq])])⟩

/-! ## The significand-selection scan -/

/-- Once a candidate `a` past the best-so-far `b` fails to improve, no later
(larger) candidate can improve either: the target must lie at or below `a`,
so distances only grow from there. -/
theorem bestStep_no_later_improvement (t b a x : ℚ) (hba : b < a) (hax : a ≤ x)
    (h : ¬(|a - t| < |b - t|)) : ¬(|x - t| < |b - t|) := by
  have h1 : |b - t| ≤ |a - t| := not_lt.mp h
  have hta : t ≤ a := by
    by_contra hlt
    push_neg at hlt
    have e1 : |a - t| = t - a := by
      rw [abs_sub_comm]
      exact abs_of_pos (by linarith)
    have e2 : |b - t| = t - b := by
      rw [abs_sub_comm]
      exact abs_of_pos (by linarith)
    rw [e1, e2] at h1
    linarith
  have e3 : |x - t| = x - t := abs_of_nonneg (by linarith)
  have e4 : |a - t| = a - t := abs_of_nonneg (by linarith)
  rw [e4] at h1
  rw [not_lt, e3]
  linarith

/-- A full minimum-by-distance scan leaves the accumulator unchanged when no
candidate improves on it. -/
theorem foldl_bestStep_of_no_improvement (t b : ℚ) (l : List ℚ)
    (h : ∀ a ∈ l, ¬(|a - t| < |b - t|)) :
    l.foldl (fun best a => if |a - t| < |best - t| then a else best) b = b := by
  induction l with
  | nil => rfl
  | cons a rest ih =>
    rw [List.foldl_cons, if_neg (h a (List.mem_cons_self a rest))]
    exact ih fun x hx => h x (List.mem_cons_of_mem a hx)

/-- Over a strictly ascending candidate list whose members all exceed the
initial best-so-far, the early-exit scan of the source agrees with an
explicit full-scan minimum-by-distance. -/
theorem findBestSignificand_eq_foldl (t : ℚ) (l : List ℚ) (b : ℚ)
    (hsort : l.Pairwise (· < ·)) (hb : ∀ a ∈ l, b < a) :
    findBestSignificand l b t =
      l.foldl (fun best a => if |a - t| < |best - t| then a else best) b := by
  induction l generalizing b with
  | nil => rfl
  | cons a rest ih =>
    rw [findBestSignificand, List.foldl_cons]
    rcases List.pairwise_cons.mp hsort with ⟨ha, hrest⟩
    by_cases h : |a - t| < |b - t|
    · rw [if_pos h, if_pos h]
      exact ih a hrest ha
    · rw [if_neg h, if_neg h]
      exact (foldl_bestStep_of_no_improvement t b rest fun x hx =>
        bestStep_no_later_improvement t b a x (hb a (List.mem_cons_self a rest))
          (le_of_lt (ha x hx)) h).symm ▸ rfl

/-- The early-exit scan returns the initial best-so-far or a member of the
candidate list. -/
theorem findBestSignificand_mem (l : List ℚ) (b t : ℚ) :
    findBestSignificand l b t = b ∨ findBestSignificand l b t ∈ l := by
  induction l generalizing b with
  | nil => exact Or.inl rfl
  | cons a rest ih =>
    rw [findBestSignificand]
    by_cases h : |a - t| < |b - t|
    · rw [if_pos h]
      rcases ih a with h1 | h1
      · right
        rw [h1]
        exact List.mem_cons_self a rest
      · exact Or.inr (List.mem_cons_of_mem a h1)
    · rw [if_neg h]
      exact Or.inl rfl

/-- Over a strictly ascending candidate list whose members all exceed the
initial best-so-far, the early-exit scan minimizes the distance to the target
over the initial best and all candidates. -/
theorem findBestSignificand_min (t : ℚ) (l : List ℚ) (b : ℚ)
    (hsort : l.Pairwise (· < ·)) (hb : ∀ a ∈ l, b < a) :
    ∀ x ∈ b :: l, |findBestSignificand l b t - t| ≤ |x - t| := by
  induction l generalizing b with
  | nil =>
    intro x hx
    rw [List.mem_singleton] at hx
    rw [findBestSignificand, hx]
  | cons a rest ih =>
    intro x hx
    rcases List.pairwise_cons.mp hsort with ⟨ha, hrest⟩
    rw [findBestSignificand]
    by_cases h : |a - t| < |b - t|
    · rw [if_pos h]
      rcases List.mem_cons.mp hx with rfl | hx'
      · exact le_trans (ih a hrest ha a (List.mem_cons_self a rest)) (le_of_lt h)
      · exact ih a hrest ha x hx'
    · rw [if_neg h]
      rcases List.mem_cons.mp hx with rfl | hx'
      · exact le_refl _
      · rcases List.mem_cons.mp hx' with rfl | hx''
        · exact not_lt.mp h
        · exact not_lt.mp (bestStep_no_later_improvement t b a x
            (hb a (List.mem_cons_self a rest)) (le_of_lt (ha x hx'')) h)

/-- The default allowed-significand list is strictly ascending. -/
theorem default_allowed_significands_sorted :
    DEFAULT_ALLOWED_SIGNIFICANDS.Pairwise (· < ·) := by
  norm_num [DEFAULT_ALLOWED_SIGNIFICANDS, List.pairwise_cons]

/-- Every member of the default allowed-significand list exceeds 1. -/
theorem default_allowed_significands_gt_one :
    ∀ a ∈ DEFAULT_ALLOWED_SIGNIFICANDS, (1 : ℚ) < a := by
  norm_num [DEFAULT_ALLOWED_SIGNIFICANDS]

/-- Claim C6: for the default ascending allowed-significand set and every
target significand, the early-exit scan of the source (ascending sweep
starting from best-so-far 1, stopping at the first candidate not strictly
closer) returns the same value as an explicit full-scan minimum-by-distance
over the whole set together with 1. -/
theorem findBestSignificand_eq_fullScan (targetSignificand : ℚ) :
    findBestSignificand DEFAULT_ALLOWED_SIGNIFICANDS 1 targetSignificand =
      fullScanBestSignificand DEFAULT_ALLOWED_SIGNIFICANDS targetSignificand :=
  findBestSignificand_eq_foldl targetSignificand DEFAULT_ALLOWED_SIGNIFICANDS 1
    default_allowed_significands_sorted default_allowed_significands_gt_one

/-! ## Unit selection -/

/-- The unit-scan loop returns either a list member or the supplied default. -/
theorem pickLengthUnitLoop_mem (x : ℚ) (l : List LengthUnit) (d : LengthUnit) :
    pickLengthUnitLoop x l d ∈ l ∨ pickLengthUnitLoop x l d = d := by
  induction l with
  | nil => exact Or.inr rfl
  | cons a rest ih =>
    rw [pickLengthUnitLoop]
    by_cases h : a.lengthInNanometers ≤ x
    · rw [if_pos h]
      exact Or.inl (List.mem_cons_self a rest)
    · rw [if_neg h]
      rcases ih with h1 | h1
      · exact Or.inl (List.mem_cons_of_mem a h1)
      · exact Or.inr h1
 
/-- `pickLengthUnit` always returns a unit of the fixed table. -/
theorem pickLengthUnit_mem (q : ℚ) : pickLengthUnit q ∈ ALLOWED_UNITS := by
  rcases pickLengthUnitLoop_mem q ALLOWED_UNITS ⟨"pm", 1 / 1000⟩ with h | h
  · exact h
  · rw [pickLengthUnit, h]
    norm_num [ALLOWED_UNITS]

/-- No unit of the fixed table has a zero nanometer length. -/
theorem allowed_units_ne_zero :
    ∀ u ∈ ALLOWED_UNITS, u.lengthInNanometers ≠ 0 := by
  norm_num [ALLOWED_UNITS]

/-- Claim C3: for every `lengthInNanometers ≥ 0`, `pickLengthUnit` returns
exactly one unit from the fixed table — the first in descending-magnitude
order whose threshold is ≤ the input (equivalently the qualifying unit of
maximal threshold), or the smallest unit (pm) when none qualifies — and at an
exact power-of-ten boundary the larger unit wins: `pickLengthUnit 1000` is
µm, not nm. -/
theorem pickLengthUnit_spec :
    (∀ q : ℚ, 0 ≤ q →
      pickLengthUnit q ∈ ALLOWED_UNITS ∧
      (((pickLengthUnit q).lengthInNanometers ≤ q ∧
          ∀ v ∈ ALLOWED_UNITS, v.lengthInNanometers ≤ q →
            v.lengthInNanometers ≤ (pickLengthUnit q).lengthInNanometers) ∨
        (pickLengthUnit q = ⟨"pm", 1 / 1000⟩ ∧
          ∀ v ∈ ALLOWED_UNITS, q < v.lengthInNanometers))) ∧
    pickLengthUnit 1000 = ⟨"µm", 10 ^ 3⟩ := by
  constructor
  · intro q hq
    simp only [pickLengthUnit, pickLengthUnitLoop, ALLOWED_UNITS]
    split_ifs with h1 h2 h3 h4 h5 h6
    · exact ⟨by norm_num [ALLOWED_UNITS], Or.inl ⟨h1, by
        intro v hv hvq
        fin_cases hv <;> norm_num⟩⟩
    · refine ⟨by norm_num [ALLOWED_UNITS], Or.inl ⟨h2, ?_⟩⟩
      intro v hv hvq
      norm_num at h1
      fin_cases hv <;> norm_num at hvq ⊢ <;> linarith
    · refine ⟨by norm_num [ALLOWED_UNITS], Or.inl ⟨h3, ?_⟩⟩
      intro v hv hvq
      norm_num at h1 h2
      fin_cases hv <;> norm_num at hvq ⊢ <;> linarith
    · refine ⟨by norm_num [ALLOWED_UNITS], Or.inl ⟨h4, ?_⟩⟩
      intro v hv hvq
      norm_num at h1 h2 h3
      fin_cases hv <;> norm_num at hvq ⊢ <;> linarith
    · refine ⟨by norm_num [ALLOWED_UNITS], Or.inl ⟨h5, ?_⟩⟩
      intro v hv hvq
      norm_num at h1 h2 h3 h4
      fin_cases hv <;> norm_num at hvq ⊢ <;> linarith
    · refine ⟨by norm_num [ALLOWED_UNITS], Or.inl ⟨h6, ?_⟩⟩
      intro v hv hvq
      norm_num at h1 h2 h3 h4 h5
      fin_cases hv <;> norm_num at hvq ⊢ <;> linarith
    · refine ⟨by norm_num [ALLOWED_UNITS], Or.inr ⟨rfl, ?_⟩⟩
      intro v hv
      norm_num at h1 h2 h3 h4 h5 h6
      fin_cases hv <;> norm_num <;> linarith
  · rw [pickLengthUnit, ALLOWED_UNITS]
    norm_num [pickLengthUnitLoop]

/-- Witness for claim C3 at the input 1/2 nm (500 pm). -/
theorem pickLengthUnit_spec_witness :
    0 ≤ (1 / 2 : ℚ) ∧
    (pickLengthUnit (1 / 2) ∈ ALLOWED_UNITS ∧
      (((pickLengthUnit (1 / 2)).lengthInNanometers ≤ (1 / 2 : ℚ) ∧
          ∀ v ∈ ALLOWED_UNITS, v.lengthInNanometers ≤ (1 / 2 : ℚ) →
            v.lengthInNanometers ≤ (pickLengthUnit (1 / 2)).lengthInNanometers) ∨
        (pickLengthUnit (1 / 2) = ⟨"pm", 1 / 1000⟩ ∧
          ∀ v ∈ ALLOWED_UNITS, (1 / 2 : ℚ) < v.lengthInNanometers))) :=
  ⟨by norm_num, pickLengthUnit_spec.1 (1 / 2) (by norm_num)⟩

/-! ## The positive-input computation -/

/-- `Int.log 10` is the floor of log₁₀: it is characterized by
`10^e ≤ q < 10^(e+1)`. -/
theorem int_log_ten_eq (q : ℚ) (e : ℤ) (h1 : (10 : ℚ) ^ e ≤ q)
    (h2 : q < (10 : ℚ) ^ (e + 1)) : Int.log 10 q = e := by
  have hq : 0 < q := lt_of_lt_of_le (zpow_pos (by norm_num) e) h1
  have hb : 1 < (10 : ℕ) := by norm_num
  have hle : e ≤ Int.log 10 q := by
    rw [← Int.zpow_le_iff_le_log hb hq]
    push_cast
    exact h1
  have hlt : Int.log 10 q < e + 1 := by
    rw [← Int.lt_zpow_iff_log_lt hb hq]
    push_cast
    exact h2
  omega

/-- Evaluation of `computeOutputs` on finite inputs with a positive product:
the good path of scale_bar.ts lines 123-145, written out. -/
theorem computeOutputs_pos (allowed : List ℚ) (t npp : ℚ) (h : 0 < t * npp) :
    computeOutputs allowed (.num t) (.num npp) =
      (.num ((round (findBestSignificand allowed 1
            (t * npp / (10 : ℚ) ^ Int.log 10 (t * npp)) *
          (10 : ℚ) ^ Int.log 10 (t * npp) / npp) : ℤ) : ℚ),
       .num (findBestSignificand allowed 1
            (t * npp / (10 : ℚ) ^ Int.log 10 (t * npp)) *
          (10 : ℚ) ^ Int.log 10 (t * npp) /
          (pickLengthUnit (findBestSignificand allowed 1
              (t * npp / (10 : ℚ) ^ Int.log 10 (t * npp)) *
            (10 : ℚ) ^ Int.log 10 (t * npp))).lengthInNanometers),
       (pickLengthUnit (findBestSignificand allowed 1
            (t * npp / (10 : ℚ) ^ Int.log 10 (t * npp)) *
          (10 : ℚ) ^ Int.log 10 (t * npp))).unit) := by
  simp only [computeOutputs]
  rw [if_pos h]

/-- Claim C1: for finite positive inputs, after `update()` returns true the
outputs are mutually consistent: `lengthInPixels * nanometersPerPixel` equals
`physicalLength` times the selected unit's `lengthInNanometers` (i.e. the
physical length in nanometers) within one unit of rounding error, namely
within `nanometersPerPixel / 2`. -/
theorem update_roundTrip_consistency (s : ScaleBarDimensions) (t npp : ℚ)
    (ht : s.targetLengthInPixels = .num t)
    (hn : s.nanometersPerPixel = .num npp)
    (htp : 0 < t) (hnp : 0 < npp)
    (hch : (s.update).1 = true) :
    ∃ u ∈ ALLOWED_UNITS, ∃ (lengthInPixels : ℤ) (physicalLength : ℚ),
      (s.update).2.lengthInPixels = some (.num (lengthInPixels : ℚ)) ∧
      (s.update).2.physicalLength = some (.num physicalLength) ∧
      (s.update).2.physicalUnit = some u.unit ∧
      |(lengthInPixels : ℚ) * npp - physicalLength * u.lengthInNanometers| ≤
        npp / 2 := by
  have hcond : (s.prevNanometersPerPixel.strictEq s.nanometersPerPixel &&
      s.prevTargetLengthInPixels.strictEq s.targetLengthInPixels) = false := by
    by_contra hcc
    rw [Bool.not_eq_false] at hcc
    rw [ScaleBarDimensions.update_of_cached s hcc] at hch
    cases hch
  rw [ScaleBarDimensions.update_of_changed s hcond, ht, hn,
    computeOutputs_pos s.allowedSignificands t npp (mul_pos htp hnp)]
  set pn := findBestSignificand s.allowedSignificands 1
      (t * npp / (10 : ℚ) ^ Int.log 10 (t * npp)) *
    (10 : ℚ) ^ Int.log 10 (t * npp) with hpn
  refine ⟨pickLengthUnit pn, pickLengthUnit_mem pn, round (pn / npp),
    pn / (pickLengthUnit pn).lengthInNanometers, rfl, rfl, rfl, ?_⟩
  have hulen : (pickLengthUnit pn).lengthInNanometers ≠ 0 :=
    allowed_units_ne_zero _ (pickLengthUnit_mem pn)
  have hnne : npp ≠ 0 := ne_of_gt hnp
  rw [div_mul_cancel₀ _ hulen]
  have hdiff : (round (pn / npp) : ℚ) * npp - pn =
      ((round (pn / npp) : ℚ) - pn / npp) * npp := by
    rw [sub_mul, div_mul_cancel₀ _ hnne]
  rw [hdiff, abs_mul, abs_of_pos hnp, abs_sub_comm]
  calc |pn / npp - (round (pn / npp) : ℚ)| * npp
      ≤ 1 / 2 * npp :=
        mul_le_mul_of_nonneg_right (abs_sub_round (pn / npp)) (le_of_lt hnp)
    _ = npp / 2 := by ring

/-- Witness for claim C1 at `targetLengthInPixels = 50`,
`nanometersPerPixel = 37` on a fresh quantizer. -/
theorem update_roundTrip_consistency_witness :
    ∃ u ∈ ALLOWED_UNITS, ∃ (lengthInPixels : ℤ) (physicalLength : ℚ),
      (scenarioBState.update).2.lengthInPixels = some (.num (lengthInPixels : ℚ)) ∧
      (scenarioBState.update).2.physicalLength = some (.num physicalLength) ∧
      (scenarioBState.update).2.physicalUnit = some u.unit ∧
      |(lengthInPixels : ℚ) * 37 - physicalLength * u.lengthInNanometers| ≤
        (37 : ℚ) / 2 :=
  update_roundTrip_consistency scenarioBState 50 37 rfl rfl (by norm_num)
    (by norm_num)
    (ScaleBarDimensions.update_changed_fst _
      (by norm_num [scenarioBState, JSNum.strictEq]))

/-- Claim C2: for positive inputs and the default allowed-significand set, the
physical length stored by `update()` (converted back to nanometers through the
selected unit) equals `bestSignificand * 10 ^ exponent`, where `exponent` is
the floor of log₁₀ of `targetLengthInPixels * nanometersPerPixel`
(characterized by `10^e ≤ target < 10^(e+1)`) and `bestSignificand` belongs to
the allowed set together with the implicit member 1 and minimizes the absolute
distance to `targetSignificand = targetNanometers / 10^exponent`. -/
theorem update_physical_quantized (s : ScaleBarDimensions) (t npp : ℚ)
    (hsig : s.allowedSignificands = DEFAULT_ALLOWED_SIGNIFICANDS)
    (ht : s.targetLengthInPixels = .num t)
    (hn : s.nanometersPerPixel = .num npp)
    (htp : 0 < t) (hnp : 0 < npp)
    (hch : (s.update).1 = true) :
    ∃ u ∈ ALLOWED_UNITS, ∃ physicalLength bestSignificand : ℚ,
      (s.update).2.physicalUnit = some u.unit ∧
      (s.update).2.physicalLength = some (.num physicalLength) ∧
      physicalLength * u.lengthInNanometers =
        bestSignificand * (10 : ℚ) ^ Int.log 10 (t * npp) ∧
      (10 : ℚ) ^ Int.log 10 (t * npp) ≤ t * npp ∧
      t * npp < (10 : ℚ) ^ (Int.log 10 (t * npp) + 1) ∧
      (bestSignificand = 1 ∨ bestSignificand ∈ DEFAULT_ALLOWED_SIGNIFICANDS) ∧
      ∀ x, (x = 1 ∨ x ∈ DEFAULT_ALLOWED_SIGNIFICANDS) →
        |bestSignificand - t * npp / (10 : ℚ) ^ Int.log 10 (t * npp)| ≤
          |x - t * npp / (10 : ℚ) ^ Int.log 10 (t * npp)| := by
  have hcond : (s.prevNanometersPerPixel.strictEq s.nanometersPerPixel &&
      s.prevTargetLengthInPixels.strictEq s.targetLengthInPixels) = false := by
    by_contra hcc
    rw [Bool.not_eq_false] at hcc
    rw [ScaleBarDimensions.update_of_cached s hcc] at hch
    cases hch
  rw [ScaleBarDimensions.update_of_changed s hcond, ht, hn,
    computeOutputs_pos s.allowedSignificands t npp (mul_pos htp hnp), hsig]
  set ts := t * npp / (10 : ℚ) ^ Int.log 10 (t * npp) with hts
  set b := findBestSignificand DEFAULT_ALLOWED_SIGNIFICANDS 1 ts with hb
  set pn := b * (10 : ℚ) ^ Int.log 10 (t * npp) with hpn
  refine ⟨pickLengthUnit pn, pickLengthUnit_mem pn,
    pn / (pickLengthUnit pn).lengthInNanometers, b, rfl, rfl, ?_, ?_, ?_, ?_, ?_⟩
  · exact div_mul_cancel₀ pn (allowed_units_ne_zero _ (pickLengthUnit_mem pn))
  · have h := Int.zpow_log_le_self (b := 10) (by norm_num) (mul_pos htp hnp)
    push_cast at h
    exact h
  · have h := Int.lt_zpow_succ_log_self (b := 10) (by norm_num) (t * npp)
    push_cast at h
    exact h
  · rcases findBestSignificand_mem DEFAULT_ALLOWED_SIGNIFICANDS 1 ts with h | h
    · exact Or.inl h
    · exact Or.inr h
  · intro x hx
    refine findBestSignificand_min ts DEFAULT_ALLOWED_SIGNIFICANDS 1
      default_allowed_significands_sorted default_allowed_significands_gt_one x ?_
    rcases hx with hx | hx
    · exact hx ▸ List.mem_cons_self 1 DEFAULT_ALLOWED_SIGNIFICANDS
    · exact List.mem_cons_of_mem 1 hx

/-- Witness for claim C2 at `targetLengthInPixels = 50`,
`nanometersPerPixel = 37` on a fresh quantizer. -/
theorem update_physical_quantized_witness :
    ∃ u ∈ ALLOWED_UNITS, ∃ physicalLength bestSignificand : ℚ,
      (scenarioBState.update).2.physicalUnit = some u.unit ∧
      (scenarioBState.update).2.physicalLength = some (.num physicalLength) ∧
      physicalLength * u.lengthInNanometers =
        bestSignificand * (10 : ℚ) ^ Int.log 10 ((50 : ℚ) * 37) ∧
      (10 : ℚ) ^ Int.log 10 ((50 : ℚ) * 37) ≤ (50 : ℚ) * 37 ∧
      (50 : ℚ) * 37 < (10 : ℚ) ^ (Int.log 10 ((50 : ℚ) * 37) + 1) ∧
      (bestSignificand = 1 ∨ bestSignificand ∈ DEFAULT_ALLOWED_SIGNIFICANDS) ∧
      ∀ x, (x = 1 ∨ x ∈ DEFAULT_ALLOWED_SIGNIFICANDS) →
        |bestSignificand - (50 : ℚ) * 37 / (10 : ℚ) ^ Int.log 10 ((50 : ℚ) * 37)| ≤
          |x - (50 : ℚ) * 37 / (10 : ℚ) ^ Int.log 10 ((50 : ℚ) * 37)| :=
  update_physical_quantized scenarioBState 50 37 rfl rfl rfl (by norm_num)
    (by norm_num)
    (ScaleBarDimensions.update_changed_fst _
      (by norm_num [scenarioBState, JSNum.strictEq]))

/-- Claim C7: with `targetLengthInPixels = 50` and `nanometersPerPixel = 37`
on a fresh quantizer (spec scenario B), `update()` returns true and produces
`physicalLength = 2`, `physicalUnit = "µm"`, and
`lengthInPixels = round (2000 / 37) = 54`. -/
theorem update_scenarioB :
    (scenarioBState.update).1 = true ∧
    (scenarioBState.update).2.physicalLength = some (JSNum.num 2) ∧
    (scenarioBState.update).2.physicalUnit = some "µm" ∧
    (scenarioBState.update).2.lengthInPixels = some (JSNum.num 54) := by
  have hlog : Int.log 10 ((50 : ℚ) * 37) = 3 :=
    int_log_ten_eq _ 3 (by norm_num) (by norm_num)
  have hcond : (scenarioBState.prevNanometersPerPixel.strictEq
        scenarioBState.nanometersPerPixel &&
      scenarioBState.prevTargetLengthInPixels.strictEq
        scenarioBState.targetLengthInPixels) = false := by
    norm_num [scenarioBState, JSNum.strictEq]
  have hsig : findBestSignificand DEFAULT_ALLOWED_SIGNIFICANDS 1
      ((50 : ℚ) * 37 / (10 : ℚ) ^ (3 : ℤ)) = 2 := by
    norm_num [DEFAULT_ALLOWED_SIGNIFICANDS, findBestSignificand,
      abs_eq_max_neg, max_def]
  have hco : computeOutputs scenarioBState.allowedSignificands
      scenarioBState.targetLengthInPixels scenarioBState.nanometersPerPixel =
      (JSNum.num 54, JSNum.num 2, "µm") := by
    show computeOutputs DEFAULT_ALLOWED_SIGNIFICANDS (.num 50) (.num 37) = _
    rw [computeOutputs_pos _ _ _ (by norm_num), hlog, hsig]
    norm_num [pickLengthUnit, pickLengthUnitLoop, ALLOWED_UNITS, round_eq]
  rw [ScaleBarDimensions.update_of_changed _ hcond]
  simp [hco]

/-! ## The renderer/cache -/

/-- Claim C8: whenever the quantizer's `update()` reports unchanged while a
texture handle already exists, `ScaleBarTexture.update` does nothing (texture
handle, width and height — indeed the whole state — are left unchanged);
otherwise it rasterizes and uploads: the raster size is recomputed via
`makeScaleBarTexture`, an existing handle is kept (replaced in place), and a
fresh handle is allocated when none exists. -/
theorem texture_update_cache (s : ScaleBarTexture) (textWidth : ℚ) :
    ((s.dimensions.update).1 = false → s.texture ≠ none →
      s.update textWidth = s) ∧
    ((s.dimensions.update).1 = true ∨ s.texture = none →
      (s.update textWidth).width =
        (makeScaleBarTexture (s.dimensions.update).2 textWidth).1 ∧
      (s.update textWidth).height =
        (makeScaleBarTexture (s.dimensions.update).2 textWidth).2 ∧
      (s.update textWidth).dimensions = (s.dimensions.update).2 ∧
      (∀ t, s.texture = some t → (s.update textWidth).texture = some t) ∧
      (s.texture = none →
        (s.update textWidth).texture = some s.gl.nextHandle)) := by
  obtain ⟨gl, dims, tex, w, hgt⟩ := s
  constructor
  · intro h1 h2
    rcases tex with _ | tt
    · exact absurd rfl h2
    · have hd := ScaleBarDimensions.update_snd_of_not_fst dims h1
      simp [ScaleBarTexture.update, h1, hd]
  · intro h
    rcases tex with _ | tt
    · refine ⟨?_, ?_, ?_, fun tval htv => ?_, fun _ => ?_⟩
      · simp [ScaleBarTexture.update, GLContext.createTexture]
      · simp [ScaleBarTexture.update, GLContext.createTexture]
      · simp [ScaleBarTexture.update, GLContext.createTexture]
      · exact Option.noConfusion htv
      · simp [ScaleBarTexture.update, GLContext.createTexture]
    · rcases h with h | h
      · refine ⟨?_, ?_, ?_, fun tval htv => ?_, fun hn => ?_⟩
        · simp [ScaleBarTexture.update, h]
        · simp [ScaleBarTexture.update, h]
        · simp [ScaleBarTexture.update, h]
        · cases htv
          simp [ScaleBarTexture.update, h]
        · exact Option.noConfusion hn
      · exact Option.noConfusion h

/-- Witness for claim C8 at a freshly constructed renderer (no texture handle
yet, so the recompute path runs and allocates the first handle). -/
theorem texture_update_cache_witness :
    (freshTexture.update 10).width =
      (makeScaleBarTexture (freshTexture.dimensions.update).2 10).1 ∧
    (freshTexture.update 10).height =
      (makeScaleBarTexture (freshTexture.dimensions.update).2 10).2 ∧
    (freshTexture.update 10).dimensions = (freshTexture.dimensions.update).2 ∧
    (∀ t, freshTexture.texture = some t →
      (freshTexture.update 10).texture = some t) ∧
    (freshTexture.texture = none →
      (freshTexture.update 10).texture = some freshTexture.gl.nextHandle) :=
  (texture_update_cache freshTexture 10).2 (Or.inr rfl)
